import Mathlib

/-!
Shallow embedding of `cucki_main.py` (Cucki Planner MCP): a set of tool
operations performing scoped CRUD and upsert actions against three
collections (shopping list, week menu, weight entries) held in a remote
store, plus the scope resolvers they share.  The store is modelled as an
explicit state value threaded through each operation; every executed store
query bumps a call counter.  Python exceptions are modelled with `Except`,
and Python `float` values with an explicit finite/inf/nan type over `ℚ`.
-/

deriving instance DecidableEq for Except

namespace Cucki

/-- Python exceptions raised by the planner code.  The source raises
`RuntimeError` with a message in every validation/configuration failure. -/
inductive Err where
  | runtimeError (msg : String)
deriving Repr, DecidableEq

/-- A Python `float` value: finite values are modelled exactly as rationals;
the non-finite values `inf`, `-inf`, `nan` are separate constructors. -/
inductive PyFloat where
  | finite (q : ℚ)
  | inf
  | neginf
  | nan
deriving Repr, DecidableEq

def PyFloat.isFinite : PyFloat → Bool
  | .finite _ => true
  | _ => false

/-- Python `str.strip()` on the character list: drop whitespace at both ends. -/
def pyStripChars (cs : List Char) : List Char :=
  ((cs.dropWhile Char.isWhitespace).reverse.dropWhile Char.isWhitespace).reverse

/-- Python `str.strip()`. -/
def pyStrip (s : String) : String :=
  String.mk (pyStripChars s.data)

/-- ASCII lower-casing of one character (all the casing `float()` needs). -/
def lowerChar (c : Char) : Char :=
  if 65 ≤ c.toNat ∧ c.toNat ≤ 90 then Char.ofNat (c.toNat + 32) else c

def isAsciiDigit (c : Char) : Bool :=
  '0' ≤ c && c ≤ '9'

def digitsVal (l : List Char) : ℕ :=
  l.foldl (fun a c => a * 10 + (c.toNat - '0'.toNat)) 0

/-- Mantissa-and-exponent part of the CPython `float(str)` grammar:
`digits [. digits] [(e|E) [sign] digits]` with at least one digit in the
mantissa (digit-group underscores are not modelled; none of the inputs of
interest use them). -/
def parseFloatCore (cs : List Char) : Option ℚ :=
  let ip := cs.takeWhile isAsciiDigit
  let rest := cs.dropWhile isAsciiDigit
  let hasDot := match rest with
    | '.' :: _ => true
    | _ => false
  let afterDot := if hasDot then rest.drop 1 else rest
  let fp := if hasDot then afterDot.takeWhile isAsciiDigit else []
  let rest2 := if hasDot then afterDot.dropWhile isAsciiDigit else rest
  if ip = [] ∧ fp = [] then none
  else
    let m : ℕ := digitsVal ip * 10 ^ fp.length + digitsVal fp
    let d : ℕ := 10 ^ fp.length
    match rest2 with
    | [] => some (mkRat m d)
    | 'e' :: t =>
        let eneg := match t with
          | '-' :: _ => true
          | _ => false
        let t2 := match t with
          | '-' :: r => r
          | '+' :: r => r
          | r => r
        let ed := t2.takeWhile isAsciiDigit
        if ed = [] ∨ t2.dropWhile isAsciiDigit ≠ [] then none
        else if eneg then some (mkRat m (d * 10 ^ digitsVal ed))
        else some (mkRat (m * 10 ^ digitsVal ed) d)
    | 'E' :: t =>
        let eneg := match t with
          | '-' :: _ => true
          | _ => false
        let t2 := match t with
          | '-' :: r => r
          | '+' :: r => r
          | r => r
        let ed := t2.takeWhile isAsciiDigit
        if ed = [] ∨ t2.dropWhile isAsciiDigit ≠ [] then none
        else if eneg then some (mkRat m (d * 10 ^ digitsVal ed))
        else some (mkRat (m * 10 ^ digitsVal ed) d)
    | _ => none

/-- CPython `float(str)`: strips surrounding whitespace, takes an optional
sign, then either `inf`/`infinity`/`nan` (case-insensitively) or a decimal
mantissa with optional exponent.  Returns `none` where CPython raises
`ValueError`. -/
def pyFloatOfString (s : String) : Option PyFloat :=
  let t := pyStripChars s.data
  let neg := match t with
    | '-' :: _ => true
    | _ => false
  let body := match t with
    | '-' :: r => r
    | '+' :: r => r
    | r => r
  let lower := String.mk (body.map lowerChar)
  if lower = "inf" ∨ lower = "infinity" then
    some (if neg then .neginf else .inf)
  else if lower = "nan" then some .nan
  else
    match parseFloatCore body with
    | some q => some (.finite (if neg then -q else q))
    | none => none

/-- The dynamic value passed as `weight_kg`: already a float, a string to be
converted, or Python `None` (on which `float` raises `TypeError`). -/
inductive WeightInput where
  | num (f : PyFloat)
  | str (s : String)
  | pyNone
deriving Repr, DecidableEq

/-- The dynamic value passed as `day_index`: an `int`, or some non-integer
value (rejected by the `isinstance` check in the source). -/
inductive DayInput where
  | int (i : ℤ)
  | notAnInt
deriving Repr, DecidableEq

/-- Python truthiness of a `str | None` value: `None` and `""` are falsy. -/
def pyTruthy : Option String → Bool
  | none => false
  | some s => s ≠ ""

/-- Python `user_id or DEFAULT_CUCKI_USER_ID or ""` (first truthy operand). -/
def orDefault (user_id : Option String) (dflt : String) : String :=
  match user_id with
  | some s => if s ≠ "" then s else if dflt ≠ "" then dflt else ""
  | none => if dflt ≠ "" then dflt else ""

/-- Embeds `_resolve_user_id` from the source; `dflt` is the process-wide
`DEFAULT_CUCKI_USER_ID`. -/
def _resolve_user_id (dflt : String) (user_id : Option String) : Except Err String :=
  let resolved := pyStrip (orDefault user_id dflt)
  if resolved = "" then .error (.runtimeError "Missing user_id and CUCKI_DEFAULT_USER_ID")
  else .ok resolved

/-- Embeds `_resolve_week_start` from the source. -/
def _resolve_week_start (week_start : Option String) : Except Err String :=
  let value := pyStrip (week_start.getD "")
  if value = "" then .error (.runtimeError "Missing week_start (expected YYYY-MM-DD)")
  else .ok value

/-- Embeds `_resolve_day_index` from the source. -/
def _resolve_day_index : DayInput → Except Err ℤ
  | .notAnInt => .error (.runtimeError "day_index must be an integer")
  | .int i =>
      if i < 1 ∨ i > 7 then .error (.runtimeError "day_index must be in range 1..7")
      else .ok i

/-- Embeds `_resolve_date` from the source. -/
def _resolve_date (value : Option String) : Except Err String :=
  let resolved := pyStrip (value.getD "")
  if resolved = "" then .error (.runtimeError "Missing date (expected YYYY-MM-DD)")
  else .ok resolved

/-- Embeds `_resolve_weight_kg` from the source: `float(value)` with `TypeError` and
`ValueError` both turned into the validation error. -/
def _resolve_weight_kg : WeightInput → Except Err PyFloat
  | .num f => .ok f
  | .str s =>
      match pyFloatOfString s with
      | some f => .ok f
      | none => .error (.runtimeError "weight_kg must be a valid number")
  | .pyNone => .error (.runtimeError "weight_kg must be a valid number")

/-- A row of `madriguera_shopping_list`.  `id` and `created_at` are
store-assigned (modelled from the insertion counter). -/
structure ShoppingRow where
  id : ℕ
  user_id : String
  name : String
  category : String
  qty : String
  done : Bool
  created_at : ℕ
deriving Repr, DecidableEq

/-- A row of `madriguera_week_menu`. -/
structure MenuRow where
  id : ℕ
  user_id : String
  week_start : String
  day_index : ℤ
  breakfast : String
  lunch : String
  dinner : String
  is_done : Bool
deriving Repr, DecidableEq

/-- A row of `madriguera_weight_entries`. -/
structure WeightRow where
  id : ℕ
  user_id : String
  date : String
  weight_kg : PyFloat
  notes : Option String
deriving Repr, DecidableEq

/-- The remote store: the three tables, a fresh-id counter for inserts, and a
counter of executed store queries (each `.execute()` in the source bumps it). -/
structure Store where
  shopping : List ShoppingRow
  week_menu : List MenuRow
  weight_entries : List WeightRow
  nextId : ℕ
  calls : ℕ
deriving Repr, DecidableEq

/-- Account one executed store query. -/
def Store.bump (st : Store) : Store :=
  { st with calls := st.calls + 1 }

/-- Response of `planner_shopping_list`: `{ok: true, user_id, items}`. -/
structure ShoppingListResp where
  user_id : String
  items : List ShoppingRow
deriving Repr, DecidableEq

/-- Response of `planner_shopping_add`: `{ok: true, user_id, item}`. -/
structure ShoppingAddResp where
  user_id : String
  item : ShoppingRow
deriving Repr, DecidableEq

/-- Response of `planner_shopping_update`: either the soft failure
`{ok: false, error: msg}` or `{ok: true, updated: rows}`. -/
inductive ShoppingUpdateResp where
  | fieldsErr (msg : String)
  | updated (rows : List ShoppingRow)
deriving Repr, DecidableEq

/-- Response of `planner_shopping_set_done`: `{ok: true, updated: rows}`. -/
structure ShoppingSetDoneResp where
  updated : List ShoppingRow
deriving Repr, DecidableEq

/-- Response of `planner_shopping_delete`: `{ok: true, deleted: rows}`. -/
structure ShoppingDeleteResp where
  deleted : List ShoppingRow
deriving Repr, DecidableEq

/-- Insertion sort, used to model the `order(...)` clauses of list queries. -/
def insertLe (le : α → α → Bool) (a : α) : List α → List α
  | [] => [a]
  | b :: t => if le a b then a :: b :: t else b :: insertLe le a t

def sortByKey (le : α → α → Bool) : List α → List α
  | [] => []
  | a :: t => insertLe le a (sortByKey le t)

/-- The row filter of `planner_shopping_update` / `set_done` / `delete`:
always `.eq("id", item_id)`, and `.eq("user_id", user_id)` only under the
source's `if user_id:` truthiness test. -/
def shoppingScope (item_id : ℕ) (user_id : Option String) (r : ShoppingRow) : Bool :=
  r.id == item_id && (if pyTruthy user_id then r.user_id == user_id.getD "" else true)

/-- The presence-based change-set of `planner_shopping_update` applied to a row. -/
def shoppingApply (name category qty : Option String) (done : Option Bool)
    (r : ShoppingRow) : ShoppingRow :=
  { r with
    name := name.getD r.name
    category := category.getD r.category
    qty := qty.getD r.qty
    done := done.getD r.done }

/-- Embeds `planner_shopping_list` from the source. -/
def planner_shopping_list (dflt : String) (user_id : Option String) (include_done : Bool)
    (st : Store) : Except Err ShoppingListResp × Store :=
  match _resolve_user_id dflt user_id with
  | .error e => (.error e, st)
  | .ok uid =>
      let base := st.shopping.filter (fun r => r.user_id == uid)
      let rows := if include_done then base else base.filter (fun r => r.done == false)
      let sorted := sortByKey (fun a b => b.created_at ≤ a.created_at) rows
      (.ok { user_id := uid, items := sorted }, st.bump)

/-- Embeds `_shopping_insert` from the source: builds the payload and inserts it,
returning the inserted row. -/
def _shopping_insert (uid name category qty : String) (done : Bool)
    (st : Store) : ShoppingRow × Store :=
  let row : ShoppingRow :=
    { id := st.nextId, user_id := uid, name := name, category := category,
      qty := qty, done := done, created_at := st.nextId }
  (row, { st with shopping := st.shopping ++ [row], nextId := st.nextId + 1,
                  calls := st.calls + 1 })

/-- Embeds `planner_shopping_add` from the source. -/
def planner_shopping_add (dflt : String) (name : String) (user_id : Option String)
    (category qty : String) (done : Bool) (st : Store) :
    Except Err ShoppingAddResp × Store :=
  match _resolve_user_id dflt user_id with
  | .error e => (.error e, st)
  | .ok uid =>
      let (row, st2) := _shopping_insert uid name category qty done st
      (.ok { user_id := uid, item := row }, st2)

/-- Embeds `planner_shopping_update` from the source. -/
def planner_shopping_update (item_id : ℕ) (name category qty : Option String)
    (done : Option Bool) (user_id : Option String) (st : Store) :
    Except Err ShoppingUpdateResp × Store :=
  if name = none ∧ category = none ∧ qty = none ∧ done = none then
    (.ok (.fieldsErr "No fields to update"), st)
  else
    let upd := shoppingApply name category qty done
    let rows := (st.shopping.filter (shoppingScope item_id user_id)).map upd
    let st2 := { st with
      shopping := st.shopping.map (fun r => if shoppingScope item_id user_id r then upd r else r),
      calls := st.calls + 1 }
    (.ok (.updated rows), st2)

/-- Embeds `planner_shopping_set_done` from the source. -/
def planner_shopping_set_done (item_id : ℕ) (done : Bool) (user_id : Option String)
    (st : Store) : Except Err ShoppingSetDoneResp × Store :=
  let upd := fun (r : ShoppingRow) => { r with done := done }
  let rows := (st.shopping.filter (shoppingScope item_id user_id)).map upd
  let st2 := { st with
    shopping := st.shopping.map (fun r => if shoppingScope item_id user_id r then upd r else r),
    calls := st.calls + 1 }
  (.ok { updated := rows }, st2)

/-- Embeds `planner_shopping_delete` from the source. -/
def planner_shopping_delete (item_id : ℕ) (user_id : Option String)
    (st : Store) : Except Err ShoppingDeleteResp × Store :=
  let deleted := st.shopping.filter (shoppingScope item_id user_id)
  let st2 := { st with
    shopping := st.shopping.filter (fun r => !(shoppingScope item_id user_id r)),
    calls := st.calls + 1 }
  (.ok { deleted := deleted }, st2)

/-- Response of `planner_week_menu_list`. -/
structure MenuListResp where
  user_id : String
  week_start : String
  items : List MenuRow
deriving Repr, DecidableEq

/-- Response of `planner_week_menu_add`: `item` is the first row returned by
the insert (`none` models the `or [{}]` empty-dict fallback). -/
structure MenuAddResp where
  item : Option MenuRow
deriving Repr, DecidableEq

/-- Response of `planner_week_menu_update`. -/
inductive MenuUpdateResp where
  | fieldsErr (msg : String)
  | updated (rows : List MenuRow)
deriving Repr, DecidableEq

/-- Response of `planner_week_menu_delete`. -/
structure MenuDeleteResp where
  deleted : List MenuRow
deriving Repr, DecidableEq

inductive UpsertMode where
  | inserted
  | updated
deriving Repr, DecidableEq

/-- Response of `planner_week_menu_upsert_day`. -/
structure MenuUpsertResp where
  mode : UpsertMode
  item : Option MenuRow
deriving Repr, DecidableEq

/-- The row filter of `planner_week_menu_update` / `delete`: `.eq("id", _)`
always, plus `.eq("user_id", _)` and `.eq("week_start", _)` each under a
truthiness test on the raw parameter. -/
def menuScope (item_id : ℕ) (user_id week_start : Option String) (r : MenuRow) : Bool :=
  r.id == item_id &&
    (if pyTruthy user_id then r.user_id == user_id.getD "" else true) &&
    (if pyTruthy week_start then r.week_start == week_start.getD "" else true)

/-- The presence-based change-set of `planner_week_menu_update` applied to a
row (`di` is the already-resolved `day_index`, when provided). -/
def menuApplyChanges (breakfast lunch dinner : Option String) (is_done : Option Bool)
    (di : Option ℤ) (r : MenuRow) : MenuRow :=
  { r with
    breakfast := breakfast.getD r.breakfast
    lunch := lunch.getD r.lunch
    dinner := dinner.getD r.dinner
    is_done := is_done.getD r.is_done
    day_index := di.getD r.day_index }

/-- Natural-key match used by the `planner_week_menu_upsert_day` lookup. -/
def menuNaturalKey (uid ws : String) (di : ℤ) (r : MenuRow) : Bool :=
  r.user_id == uid && r.week_start == ws && r.day_index == di

/-- Embeds `planner_week_menu_list` from the source. -/
def planner_week_menu_list (dflt : String) (user_id week_start : Option String)
    (st : Store) : Except Err MenuListResp × Store :=
  match _resolve_user_id dflt user_id with
  | .error e => (.error e, st)
  | .ok uid =>
      match _resolve_week_start week_start with
      | .error e => (.error e, st)
      | .ok ws =>
          let rows := st.week_menu.filter (fun r => r.user_id == uid && r.week_start == ws)
          let sorted := sortByKey (fun a b => a.day_index ≤ b.day_index) rows
          (.ok { user_id := uid, week_start := ws, items := sorted }, st.bump)

/-- Embeds `planner_week_menu_add` from the source. -/
def planner_week_menu_add (dflt : String) (day_index : ℤ)
    (breakfast lunch dinner : String) (is_done : Bool)
    (user_id week_start : Option String) (st : Store) :
    Except Err MenuAddResp × Store :=
  match _resolve_user_id dflt user_id with
  | .error e => (.error e, st)
  | .ok uid =>
      match _resolve_week_start week_start with
      | .error e => (.error e, st)
      | .ok ws =>
          match _resolve_day_index (.int day_index) with
          | .error e => (.error e, st)
          | .ok di =>
              let row : MenuRow :=
                { id := st.nextId, user_id := uid, week_start := ws, day_index := di,
                  breakfast := breakfast, lunch := lunch, dinner := dinner,
                  is_done := is_done }
              (.ok { item := some row },
               { st with week_menu := st.week_menu ++ [row], nextId := st.nextId + 1,
                         calls := st.calls + 1 })

/-- Embeds `planner_week_menu_update` from the source.  A provided `day_index` is
resolved (and may raise) while the change-set is being built. -/
def planner_week_menu_update (item_id : ℕ) (breakfast lunch dinner : Option String)
    (is_done : Option Bool) (day_index : Option ℤ) (user_id week_start : Option String)
    (st : Store) : Except Err MenuUpdateResp × Store :=
  match day_index with
  | some i =>
      match _resolve_day_index (.int i) with
      | .error e => (.error e, st)
      | .ok di =>
          let upd := menuApplyChanges breakfast lunch dinner is_done (some di)
          let rows := (st.week_menu.filter (menuScope item_id user_id week_start)).map upd
          (.ok (.updated rows),
           { st with
             week_menu := st.week_menu.map
               (fun r => if menuScope item_id user_id week_start r then upd r else r),
             calls := st.calls + 1 })
  | none =>
      if breakfast = none ∧ lunch = none ∧ dinner = none ∧ is_done = none then
        (.ok (.fieldsErr "No fields to update"), st)
      else
        let upd := menuApplyChanges breakfast lunch dinner is_done none
        let rows := (st.week_menu.filter (menuScope item_id user_id week_start)).map upd
        (.ok (.updated rows),
         { st with
           week_menu := st.week_menu.map
             (fun r => if menuScope item_id user_id week_start r then upd r else r),
           calls := st.calls + 1 })

/-- Embeds `planner_week_menu_delete` from the source. -/
def planner_week_menu_delete (item_id : ℕ) (user_id week_start : Option String)
    (st : Store) : Except Err MenuDeleteResp × Store :=
  let deleted := st.week_menu.filter (menuScope item_id user_id week_start)
  (.ok { deleted := deleted },
   { st with
     week_menu := st.week_menu.filter (fun r => !(menuScope item_id user_id week_start r)),
     calls := st.calls + 1 })

/-- The row filter of the update branch of `planner_week_menu_upsert_day`:
`.eq("id", row_id).eq("user_id", uid).eq("week_start", ws)`. -/
def menuUpsertUpdScope (row_id : ℕ) (uid ws : String) (r : MenuRow) : Bool :=
  r.id == row_id && r.user_id == uid && r.week_start == ws

/-- The wholesale change-set of the upsert update branch: all four mutable
fields are written with the call's arguments. -/
def menuUpsertApply (breakfast lunch dinner : String) (is_done : Bool)
    (r : MenuRow) : MenuRow :=
  { r with breakfast := breakfast, lunch := lunch, dinner := dinner, is_done := is_done }

/-- Embeds `planner_week_menu_upsert_day` from the source. -/
def planner_week_menu_upsert_day (dflt : String) (day_index : ℤ)
    (breakfast lunch dinner : String) (is_done : Bool)
    (user_id week_start : Option String) (st : Store) :
    Except Err MenuUpsertResp × Store :=
  match _resolve_user_id dflt user_id with
  | .error e => (.error e, st)
  | .ok uid =>
      match _resolve_week_start week_start with
      | .error e => (.error e, st)
      | .ok ws =>
          match _resolve_day_index (.int day_index) with
          | .error e => (.error e, st)
          | .ok di =>
              let found := (st.week_menu.filter (menuNaturalKey uid ws di)).take 1
              let st1 := st.bump
              match found with
              | r0 :: _ =>
                  let upd := menuUpsertApply breakfast lunch dinner is_done
                  let rows := (st1.week_menu.filter (menuUpsertUpdScope r0.id uid ws)).map upd
                  (.ok { mode := .updated, item := rows.head? },
                   { st1 with
                     week_menu := st1.week_menu.map
                       (fun r => if menuUpsertUpdScope r0.id uid ws r then upd r else r),
                     calls := st1.calls + 1 })
              | [] =>
                  let row : MenuRow :=
                    { id := st1.nextId, user_id := uid, week_start := ws, day_index := di,
                      breakfast := breakfast, lunch := lunch, dinner := dinner,
                      is_done := is_done }
                  (.ok { mode := .inserted, item := some row },
                   { st1 with week_menu := st1.week_menu ++ [row], nextId := st1.nextId + 1,
                              calls := st1.calls + 1 })

/-- Response of `planner_weight_list`. -/
structure WeightListResp where
  user_id : String
  items : List WeightRow
deriving Repr, DecidableEq

/-- Response of `planner_weight_add`. -/
structure WeightAddResp where
  item : Option WeightRow
deriving Repr, DecidableEq

/-- Response of `planner_weight_update`. -/
inductive WeightUpdateResp where
  | fieldsErr (msg : String)
  | updated (rows : List WeightRow)
deriving Repr, DecidableEq

/-- Response of `planner_weight_delete`. -/
structure WeightDeleteResp where
  deleted : List WeightRow
deriving Repr, DecidableEq

/-- Response of `planner_weight_upsert_by_date`. -/
structure WeightUpsertResp where
  mode : UpsertMode
  item : Option WeightRow
deriving Repr, DecidableEq

/-- The row filter of `planner_weight_update` / `delete`. -/
def weightScope (item_id : ℕ) (user_id : Option String) (r : WeightRow) : Bool :=
  r.id == item_id && (if pyTruthy user_id then r.user_id == user_id.getD "" else true)

/-- The presence-based change-set of `planner_weight_update` applied to a row
(`date` and `weight_kg` already resolved when provided). -/
def weightApplyChanges (date : Option String) (weight : Option PyFloat)
    (notes : Option String) (r : WeightRow) : WeightRow :=
  { r with
    date := date.getD r.date
    weight_kg := weight.getD r.weight_kg
    notes := match notes with
      | some n => some n
      | none => r.notes }

/-- Natural-key match used by the `planner_weight_upsert_by_date` lookup. -/
def weightNaturalKey (uid d : String) (r : WeightRow) : Bool :=
  r.user_id == uid && r.date == d

/-- Embeds `planner_weight_list` from the source. -/
def planner_weight_list (dflt : String) (user_id : Option String)
    (st : Store) : Except Err WeightListResp × Store :=
  match _resolve_user_id dflt user_id with
  | .error e => (.error e, st)
  | .ok uid =>
      let rows := st.weight_entries.filter (fun r => r.user_id == uid)
      let sorted := sortByKey (fun a b => a.date ≤ b.date) rows
      (.ok { user_id := uid, items := sorted }, st.bump)

/-- Embeds `planner_weight_add` from the source. -/
def planner_weight_add (dflt : String) (date : String) (weight_kg : WeightInput)
    (notes : Option String) (user_id : Option String) (st : Store) :
    Except Err WeightAddResp × Store :=
  match _resolve_user_id dflt user_id with
  | .error e => (.error e, st)
  | .ok uid =>
      match _resolve_date (some date) with
      | .error e => (.error e, st)
      | .ok d =>
          match _resolve_weight_kg weight_kg with
          | .error e => (.error e, st)
          | .ok w =>
              let row : WeightRow :=
                { id := st.nextId, user_id := uid, date := d, weight_kg := w, notes := notes }
              (.ok { item := some row },
               { st with weight_entries := st.weight_entries ++ [row],
                         nextId := st.nextId + 1, calls := st.calls + 1 })

/-- Resolution of an optional field while a change-set is being built: a
provided value is resolved (and may raise), an omitted one stays omitted. -/
def optResolve (f : α → Except Err β) : Option α → Except Err (Option β)
  | some a => (f a).map some
  | none => .ok none

/-- Embeds `planner_weight_update` from the source.  Provided `date` / `weight_kg`
are resolved (and may raise) while the change-set is being built. -/
def planner_weight_update (item_id : ℕ) (date : Option String)
    (weight_kg : Option WeightInput) (notes : Option String)
    (user_id : Option String) (st : Store) : Except Err WeightUpdateResp × Store :=
  match optResolve (fun dd => _resolve_date (some dd)) date with
  | .error e => (.error e, st)
  | .ok dOpt =>
      match optResolve _resolve_weight_kg weight_kg with
      | .error e => (.error e, st)
      | .ok wOpt =>
          if dOpt = none ∧ wOpt = none ∧ notes = none then
            (.ok (.fieldsErr "No fields to update"), st)
          else
            let upd := weightApplyChanges dOpt wOpt notes
            let rows := (st.weight_entries.filter (weightScope item_id user_id)).map upd
            (.ok (.updated rows),
             { st with
               weight_entries := st.weight_entries.map
                 (fun r => if weightScope item_id user_id r then upd r else r),
               calls := st.calls + 1 })

/-- Embeds `planner_weight_delete` from the source. -/
def planner_weight_delete (item_id : ℕ) (user_id : Option String)
    (st : Store) : Except Err WeightDeleteResp × Store :=
  let deleted := st.weight_entries.filter (weightScope item_id user_id)
  (.ok { deleted := deleted },
   { st with
     weight_entries := st.weight_entries.filter (fun r => !(weightScope item_id user_id r)),
     calls := st.calls + 1 })

/-- The row filter of the update branch of `planner_weight_upsert_by_date`:
`.eq("id", row_id).eq("user_id", uid)`. -/
def weightUpsertUpdScope (row_id : ℕ) (uid : String) (r : WeightRow) : Bool :=
  r.id == row_id && r.user_id == uid

/-- The wholesale change-set of the upsert update branch: both `weight_kg`
and `notes` are written with the call's arguments (`notes` may be `none`,
which overwrites the stored notes with null). -/
def weightUpsertApply (w : PyFloat) (notes : Option String) (r : WeightRow) : WeightRow :=
  { r with weight_kg := w, notes := notes }

/-- Embeds `planner_weight_upsert_by_date` from the source. -/
def planner_weight_upsert_by_date (dflt : String) (date : String)
    (weight_kg : WeightInput) (notes : Option String) (user_id : Option String)
    (st : Store) : Except Err WeightUpsertResp × Store :=
  match _resolve_user_id dflt user_id with
  | .error e => (.error e, st)
  | .ok uid =>
      match _resolve_date (some date) with
      | .error e => (.error e, st)
      | .ok d =>
          match _resolve_weight_kg weight_kg with
          | .error e => (.error e, st)
          | .ok w =>
              let found := (st.weight_entries.filter (weightNaturalKey uid d)).take 1
              let st1 := st.bump
              match found with
              | r0 :: _ =>
                  let upd := weightUpsertApply w notes
                  let rows := (st1.weight_entries.filter (weightUpsertUpdScope r0.id uid)).map upd
                  (.ok { mode := .updated, item := rows.head? },
                   { st1 with
                     weight_entries := st1.weight_entries.map
                       (fun r => if weightUpsertUpdScope r0.id uid r then upd r else r),
                     calls := st1.calls + 1 })
              | [] =>
                  let row : WeightRow :=
                    { id := st1.nextId, user_id := uid, date := d, weight_kg := w,
                      notes := notes }
                  (.ok { mode := .inserted, item := some row },
                   { st1 with weight_entries := st1.weight_entries ++ [row],
                              nextId := st1.nextId + 1, calls := st1.calls + 1 })

/-- A store holding one shopping item owned by `"alice"`; used as a concrete
scenario in several theorems below. -/
def demoStoreA : Store :=
  { shopping := [{ id := 0, user_id := "alice", name := "milk", category := "Otros",
                   qty := "1", done := false, created_at := 0 }],
    week_menu := [], weight_entries := [], nextId := 1, calls := 0 }

/-- An empty store; used as a concrete scenario in several theorems below. -/
def demoStoreB : Store :=
  { shopping := [], week_menu := [], weight_entries := [], nextId := 5, calls := 0 }

example : _resolve_weight_kg (.str "72.5") = .ok (.finite (Rat.divInt 145 2)) := by decide

theorem mem_insertLe {le : α → α → Bool} {a b : α} {l : List α} :
    b ∈ insertLe le a l ↔ b = a ∨ b ∈ l := by
  induction l with
  | nil => simp [insertLe]
  | cons c t ih =>
      by_cases h : le a c = true
      · simp [insertLe, h]
      · simp only [insertLe, if_neg h, List.mem_cons, ih]
        tauto

theorem mem_sortByKey {le : α → α → Bool} {a : α} {l : List α} :
    a ∈ sortByKey le l ↔ a ∈ l := by
  induction l with
  | nil => simp [sortByKey]
  | cons c t ih => simp [sortByKey, mem_insertLe, ih]

theorem map_ite_eq_self {p : α → Bool} {f : α → α} {l : List α}
    (h : ∀ a ∈ l, p a = false) :
    (l.map fun a => if p a then f a else a) = l := by
  induction l with
  | nil => rfl
  | cons a t ih =>
      have ha := h a (by simp)
      simp [List.map_cons, ha, ih fun x hx => h x (by simp [hx])]

theorem mem_map_ite_of_false {p : α → Bool} {f : α → α} {l : List α} {a : α}
    (ha : a ∈ l) (hp : p a = false) :
    a ∈ l.map fun x => if p x then f x else x := by
  exact List.mem_map.mpr ⟨a, ha, by simp [hp]⟩

theorem mem_map_ite_of_true {p : α → Bool} {f : α → α} {l : List α} {a : α}
    (ha : a ∈ l) (hp : p a = true) :
    f a ∈ l.map fun x => if p x then f x else x := by
  exact List.mem_map.mpr ⟨a, ha, by simp [hp]⟩

theorem mem_filter_not_of_false {p : α → Bool} {l : List α} {a : α}
    (ha : a ∈ l) (hp : p a = false) :
    a ∈ l.filter fun x => !(p x) := by
  simp [List.mem_filter, ha, hp]

theorem not_mem_filter_not {p : α → Bool} {l : List α} {a : α}
    (hp : p a = true) :
    a ∉ l.filter fun x => !(p x) := by
  simp [List.mem_filter, hp]

/-- C7: day-index resolution rejects `0`, `8`, `-1` and every other integer
outside `1..7`, rejects any non-integer value, and accepts each integer in
`1..7`, returning it unchanged. -/
theorem C7_resolve_day_index_spec :
    (∀ i : ℤ, 1 ≤ i → i ≤ 7 → _resolve_day_index (.int i) = .ok i) ∧
    _resolve_day_index (.int 0)
      = .error (.runtimeError "day_index must be in range 1..7") ∧
    _resolve_day_index (.int 8)
      = .error (.runtimeError "day_index must be in range 1..7") ∧
    _resolve_day_index (.int (-1))
      = .error (.runtimeError "day_index must be in range 1..7") ∧
    _resolve_day_index .notAnInt
      = .error (.runtimeError "day_index must be an integer") ∧
    (∀ i : ℤ, i < 1 ∨ 7 < i → _resolve_day_index (.int i)
      = .error (.runtimeError "day_index must be in range 1..7")) := by
  refine ⟨?_, by decide, by decide, by decide, by decide, ?_⟩
  · intro i h1 h2
    have h : ¬(i < 1 ∨ i > 7) := by omega
    simp [_resolve_day_index, h]
  · intro i h
    have h' : i < 1 ∨ i > 7 := by omega
    simp [_resolve_day_index, h']

/-- C7 witness: `3` is accepted and returned unchanged. -/
theorem C7_witness : _resolve_day_index (.int 3) = .ok 3 :=
  C7_resolve_day_index_spec.1 3 (by decide) (by decide)

/-- C4 counterexample: a whitespace-only candidate with the non-empty
configured default `"bob"` does not resolve to the default; the call fails
instead, because `user_id or DEFAULT` keeps the truthy whitespace string and
then strips it to empty. -/
theorem C4_counterexample :
    _resolve_user_id "bob" (some " ")
      = .error (.runtimeError "Missing user_id and CUCKI_DEFAULT_USER_ID") := by
  decide

/-- C4 amended: owner resolution falls back to the process-wide default only
when the candidate is `None` or the empty string (Python falsiness), not when
it is whitespace-only; a non-empty candidate is trimmed and returned when its
trim is non-empty, and the call fails whenever the selected value trims to
empty — in particular for a whitespace-only candidate even though a non-empty
default is configured. -/
theorem C4_resolve_owner_amended :
    (∀ dflt s, s ≠ "" → pyStrip s ≠ "" →
      _resolve_user_id dflt (some s) = .ok (pyStrip s)) ∧
    (∀ dflt s, s ≠ "" → pyStrip s = "" →
      _resolve_user_id dflt (some s)
        = .error (.runtimeError "Missing user_id and CUCKI_DEFAULT_USER_ID")) ∧
    (∀ dflt, pyStrip dflt ≠ "" →
      _resolve_user_id dflt none = .ok (pyStrip dflt) ∧
      _resolve_user_id dflt (some "") = .ok (pyStrip dflt)) ∧
    (∀ dflt, pyStrip dflt = "" →
      _resolve_user_id dflt none
        = .error (.runtimeError "Missing user_id and CUCKI_DEFAULT_USER_ID") ∧
      _resolve_user_id dflt (some "")
        = .error (.runtimeError "Missing user_id and CUCKI_DEFAULT_USER_ID")) := by
  have hempty : pyStrip "" = "" := by decide
  refine ⟨?_, ?_, ?_, ?_⟩
  · intro dflt s hs ht
    simp [_resolve_user_id, orDefault, hs, ht]
  · intro dflt s hs ht
    simp [_resolve_user_id, orDefault, hs, ht]
  · intro dflt hd
    have hdne : dflt ≠ "" := fun h => hd (h ▸ hempty)
    constructor <;> simp [_resolve_user_id, orDefault, hdne, hd]
  · intro dflt hd
    by_cases hdne : dflt = ""
    · subst hdne
      constructor <;> simp [_resolve_user_id, orDefault, hempty]
    · constructor <;> simp [_resolve_user_id, orDefault, hdne, hd]

/-- C4 witness: a padded non-empty candidate resolves to its trim. -/
theorem C4_witness : _resolve_user_id "bob" (some " alice ") = .ok "alice" := by
  have h := C4_resolve_owner_amended.1 "bob" " alice " (by decide) (by decide)
  rw [(by decide : pyStrip " alice " = "alice")] at h
  exact h

/-- C8 counterexample: the string `"inf"` does not parse as a finite number,
yet weight resolution accepts it (`float("inf")` succeeds in Python); no
`ValidationError` is raised. -/
theorem C8_counterexample :
    _resolve_weight_kg (.str "inf") = .ok PyFloat.inf ∧
    PyFloat.inf.isFinite = false := by
  decide

/-- C8 amended: weight resolution applies Python `float()` conversion:
`"abc"` is rejected with the validation error and `"72.5"` resolves to
`72.5`; rejection happens exactly when the conversion fails, and any value
the conversion produces — finite or not — is accepted (no finiteness check,
so `"inf"` passes through).  A failed weight resolution leaves the store
untouched: `planner_weight_add` performs no store call in that case. -/
theorem C8_resolve_weight_amended :
    _resolve_weight_kg (.str "abc")
      = .error (.runtimeError "weight_kg must be a valid number") ∧
    _resolve_weight_kg (.str "72.5") = .ok (.finite (Rat.divInt 145 2)) ∧
    (∀ s, pyFloatOfString s = none →
      _resolve_weight_kg (.str s)
        = .error (.runtimeError "weight_kg must be a valid number")) ∧
    (∀ s f, pyFloatOfString s = some f → _resolve_weight_kg (.str s) = .ok f) ∧
    (∀ dflt date w notes uid st e, _resolve_weight_kg w = .error e →
      (planner_weight_add dflt date w notes uid st).2 = st) := by
  refine ⟨by decide, by decide, ?_, ?_, ?_⟩
  · intro s h
    simp [_resolve_weight_kg, h]
  · intro s f h
    simp [_resolve_weight_kg, h]
  · intro dflt date w notes uid st e hw
    cases hu : _resolve_user_id dflt uid with
    | error e1 => simp [planner_weight_add, hu]
    | ok u =>
        cases hd : _resolve_date (some date) with
        | error e2 => simp [planner_weight_add, hu, hd]
        | ok d => simp [planner_weight_add, hu, hd, hw]

example :
    (planner_shopping_update 0 none none none (some true) none demoStoreA).2.shopping
      = [{ id := 0, user_id := "alice", name := "milk", category := "Otros",
           qty := "1", done := true, created_at := 0 }] := by decide

example :
    (planner_weight_upsert_by_date "bob" "2024-01-01" (.num (.finite 70)) none none
      demoStoreB).1
      = .ok { mode := .inserted,
              item := some { id := 5, user_id := "bob", date := "2024-01-01",
                             weight_kg := .finite 70, notes := none } } := by decide

example :
    (planner_weight_upsert_by_date "bob" "2024-01-01" (.num (.finite 71)) none none
      (planner_weight_upsert_by_date "bob" "2024-01-01" (.num (.finite 70)) none none
        demoStoreB).2).1
      = .ok { mode := .updated,
              item := some { id := 5, user_id := "bob", date := "2024-01-01",
                             weight_kg := .finite 71, notes := none } } := by decide
/-- C8 witness: adding a weight entry with the unparsable weight `"abc"`
leaves the concrete store exactly as it was. -/
theorem C8_witness :
    (planner_weight_add "bob" "2024-01-01" (.str "abc") none none demoStoreB).2
      = demoStoreB :=
  C8_resolve_weight_amended.2.2.2.2 "bob" "2024-01-01" (.str "abc") none none demoStoreB
    (.runtimeError "weight_kg must be a valid number") (by decide)

/-- C9: `planner_shopping_add` with a resolvable owner inserts a record
carrying `name`, `category`, `qty` and `done` exactly as supplied — no
validation of `name` is performed, so instantiating `name` with the empty
string inserts it all the same — and returns `ok` with the inserted row.
The Python defaults for the omitted optional fields are `category="Otros"`,
`qty="1"`, `done=False` (the witness instantiates exactly those values and
an empty name). -/
theorem C9_shopping_add_spec (dflt name category qty : String) (done : Bool)
    (uid : Option String) (u : String) (h : _resolve_user_id dflt uid = .ok u)
    (st : Store) :
    planner_shopping_add dflt name uid category qty done st
      = (.ok { user_id := u,
               item := { id := st.nextId, user_id := u, name := name,
                         category := category, qty := qty, done := done,
                         created_at := st.nextId } },
         { st with
           shopping := st.shopping ++
             [{ id := st.nextId, user_id := u, name := name, category := category,
                qty := qty, done := done, created_at := st.nextId }],
           nextId := st.nextId + 1, calls := st.calls + 1 }) := by
  simp [planner_shopping_add, _shopping_insert, h]

/-- C9 witness: an empty-string name with the Python default values for the
optional fields is inserted and the call returns the inserted row. -/
theorem C9_witness :
    planner_shopping_add "bob" "" none "Otros" "1" false demoStoreB
      = (.ok { user_id := "bob",
               item := { id := 5, user_id := "bob", name := "", category := "Otros",
                         qty := "1", done := false, created_at := 5 } },
         { shopping := [{ id := 5, user_id := "bob", name := "", category := "Otros",
                          qty := "1", done := false, created_at := 5 }],
           week_menu := [], weight_entries := [], nextId := 6, calls := 1 }) := by
  have h := C9_shopping_add_spec "bob" "" "Otros" "1" false none "bob" (by decide) demoStoreB
  simpa [demoStoreB] using h

/-- C5: each of the three partial-update operations returns the soft failure
`{ok: false, error: "No fields to update"}` and leaves the store (including
its query counter) completely unchanged when no mutable field is provided;
when a field is provided, membership in the change-set is presence-based, so
an explicitly supplied `false` / empty value is applied: supplying
`name=""` and `done=False` rewrites a matching row to carry exactly those
values (preserving the omitted `category` and `qty`), the store is contacted
(one query), and supplying `notes=""` on a weight update stores the empty
string. -/
theorem C5_update_changeset_spec :
    (∀ iid uid st, planner_shopping_update iid none none none none uid st
        = (.ok (.fieldsErr "No fields to update"), st)) ∧
    (∀ iid uid ws st, planner_week_menu_update iid none none none none none uid ws st
        = (.ok (.fieldsErr "No fields to update"), st)) ∧
    (∀ iid uid st, planner_weight_update iid none none none uid st
        = (.ok (.fieldsErr "No fields to update"), st)) ∧
    (∀ iid uid st (r : ShoppingRow), r ∈ st.shopping → shoppingScope iid uid r = true →
        { r with name := "", done := false }
          ∈ (planner_shopping_update iid (some "") none none (some false) uid st).2.shopping) ∧
    (∀ iid uid st,
        (planner_shopping_update iid (some "") none none (some false) uid st).2.calls
          = st.calls + 1) ∧
    (∀ iid uid st (r : WeightRow), r ∈ st.weight_entries → weightScope iid uid r = true →
        { r with notes := some "" }
          ∈ (planner_weight_update iid none none (some "") uid st).2.weight_entries) := by
  refine ⟨?_, ?_, ?_, ?_, ?_, ?_⟩
  · intro iid uid st
    simp [planner_shopping_update]
  · intro iid uid ws st
    simp [planner_week_menu_update]
  · intro iid uid st
    simp [planner_weight_update, optResolve]
  · intro iid uid st r hr hs
    have hrec : { r with name := "", done := false }
        = shoppingApply (some "") none none (some false) r := by
      simp [shoppingApply]
    rw [hrec]
    unfold planner_shopping_update
    rw [if_neg (by simp)]
    exact mem_map_ite_of_true hr hs
  · intro iid uid st
    simp [planner_shopping_update]
  · intro iid uid st r hr hs
    have hrec : { r with notes := some "" }
        = weightApplyChanges none none (some "") r := by
      simp [weightApplyChanges]
    rw [hrec]
    exact mem_map_ite_of_true hr hs

/-- C5 witness: updating alice's item with `done=False` and `name=""`
explicitly supplied applies exactly those two fields. -/
theorem C5_witness :
    ({ id := 0, user_id := "alice", name := "", category := "Otros",
       qty := "1", done := false, created_at := 0 } : ShoppingRow)
      ∈ (planner_shopping_update 0 (some "") none none (some false) none
          demoStoreA).2.shopping := by
  have h := C5_update_changeset_spec.2.2.2.1 0 none demoStoreA
    { id := 0, user_id := "alice", name := "milk", category := "Otros",
      qty := "1", done := false, created_at := 0 } (by decide) (by decide)
  simpa using h

/-- C6: whenever an operation that performs scope-resolver validation raises
an error (missing owner, empty `week_start` or `date`, out-of-range
`day_index`, unparsable weight), the store is exactly the same after the
failed call as before it — including the query counter, i.e. no store call
was issued.  The operations not listed here (`planner_shopping_update`,
`set_done`, `delete`, and `planner_week_menu_delete` / `weight_delete`)
perform no resolver validation and never raise. -/
theorem C6_fail_fast_spec :
    (∀ dflt uid inc st e, (planner_shopping_list dflt uid inc st).1 = .error e →
        (planner_shopping_list dflt uid inc st).2 = st) ∧
    (∀ dflt nm uid cat qty dn st e,
        (planner_shopping_add dflt nm uid cat qty dn st).1 = .error e →
        (planner_shopping_add dflt nm uid cat qty dn st).2 = st) ∧
    (∀ dflt uid ws st e, (planner_week_menu_list dflt uid ws st).1 = .error e →
        (planner_week_menu_list dflt uid ws st).2 = st) ∧
    (∀ dflt di b l dn isd uid ws st e,
        (planner_week_menu_add dflt di b l dn isd uid ws st).1 = .error e →
        (planner_week_menu_add dflt di b l dn isd uid ws st).2 = st) ∧
    (∀ iid b l dn isd di uid ws st e,
        (planner_week_menu_update iid b l dn isd di uid ws st).1 = .error e →
        (planner_week_menu_update iid b l dn isd di uid ws st).2 = st) ∧
    (∀ dflt di b l dn isd uid ws st e,
        (planner_week_menu_upsert_day dflt di b l dn isd uid ws st).1 = .error e →
        (planner_week_menu_upsert_day dflt di b l dn isd uid ws st).2 = st) ∧
    (∀ dflt uid st e, (planner_weight_list dflt uid st).1 = .error e →
        (planner_weight_list dflt uid st).2 = st) ∧
    (∀ dflt d w n uid st e, (planner_weight_add dflt d w n uid st).1 = .error e →
        (planner_weight_add dflt d w n uid st).2 = st) ∧
    (∀ iid d w n uid st e, (planner_weight_update iid d w n uid st).1 = .error e →
        (planner_weight_update iid d w n uid st).2 = st) ∧
    (∀ dflt d w n uid st e, (planner_weight_upsert_by_date dflt d w n uid st).1 = .error e →
        (planner_weight_upsert_by_date dflt d w n uid st).2 = st) := by
  refine ⟨?_, ?_, ?_, ?_, ?_, ?_, ?_, ?_, ?_, ?_⟩
  · intro dflt uid inc st e h
    cases hu : _resolve_user_id dflt uid with
    | error e1 => simp [planner_shopping_list, hu]
    | ok u => simp [planner_shopping_list, hu] at h
  · intro dflt nm uid cat qty dn st e h
    cases hu : _resolve_user_id dflt uid with
    | error e1 => simp [planner_shopping_add, hu]
    | ok u => simp [planner_shopping_add, hu, _shopping_insert] at h
  · intro dflt uid ws st e h
    cases hu : _resolve_user_id dflt uid with
    | error e1 => simp [planner_week_menu_list, hu]
    | ok u =>
        cases hw : _resolve_week_start ws with
        | error e2 => simp [planner_week_menu_list, hu, hw]
        | ok w => simp [planner_week_menu_list, hu, hw] at h
  · intro dflt di b l dn isd uid ws st e h
    cases hu : _resolve_user_id dflt uid with
    | error e1 => simp [planner_week_menu_add, hu]
    | ok u =>
        cases hw : _resolve_week_start ws with
        | error e2 => simp [planner_week_menu_add, hu, hw]
        | ok w =>
            cases hdi : _resolve_day_index (.int di) with
            | error e3 => simp [planner_week_menu_add, hu, hw, hdi]
            | ok dii => simp [planner_week_menu_add, hu, hw, hdi] at h
  · intro iid b l dn isd di uid ws st e h
    cases di with
    | none =>
        by_cases hc : b = none ∧ l = none ∧ dn = none ∧ isd = none
        · simp [planner_week_menu_update, hc] at h
        · simp [planner_week_menu_update, hc] at h
    | some i =>
        cases hdi : _resolve_day_index (.int i) with
        | error e1 => simp [planner_week_menu_update, hdi]
        | ok dii => simp [planner_week_menu_update, hdi] at h
  · intro dflt di b l dn isd uid ws st e h
    cases hu : _resolve_user_id dflt uid with
    | error e1 => simp [planner_week_menu_upsert_day, hu]
    | ok u =>
        cases hw : _resolve_week_start ws with
        | error e2 => simp [planner_week_menu_upsert_day, hu, hw]
        | ok w =>
            cases hdi : _resolve_day_index (.int di) with
            | error e3 => simp [planner_week_menu_upsert_day, hu, hw, hdi]
            | ok dii =>
                cases hf : (st.week_menu.filter (menuNaturalKey u w dii)).take 1 with
                | nil => simp [planner_week_menu_upsert_day, hu, hw, hdi, hf] at h
                | cons r0 rest =>
                    simp [planner_week_menu_upsert_day, hu, hw, hdi, hf] at h
  · intro dflt uid st e h
    cases hu : _resolve_user_id dflt uid with
    | error e1 => simp [planner_weight_list, hu]
    | ok u => simp [planner_weight_list, hu] at h
  · intro dflt d w n uid st e h
    cases hu : _resolve_user_id dflt uid with
    | error e1 => simp [planner_weight_add, hu]
    | ok u =>
        cases hd : _resolve_date (some d) with
        | error e2 => simp [planner_weight_add, hu, hd]
        | ok dd =>
            cases hw : _resolve_weight_kg w with
            | error e3 => simp [planner_weight_add, hu, hd, hw]
            | ok ww => simp [planner_weight_add, hu, hd, hw] at h
  · intro iid d w n uid st e h
    cases hd : optResolve (fun dd => _resolve_date (some dd)) d with
    | error e1 => simp [planner_weight_update, hd]
    | ok dOpt =>
        cases hw : optResolve _resolve_weight_kg w with
        | error e2 => simp [planner_weight_update, hd, hw]
        | ok wOpt =>
            by_cases hc : dOpt = none ∧ wOpt = none ∧ n = none
            · simp [planner_weight_update, hd, hw, hc] at h
            · simp [planner_weight_update, hd, hw, hc] at h
  · intro dflt d w n uid st e h
    cases hu : _resolve_user_id dflt uid with
    | error e1 => simp [planner_weight_upsert_by_date, hu]
    | ok u =>
        cases hd : _resolve_date (some d) with
        | error e2 => simp [planner_weight_upsert_by_date, hu, hd]
        | ok dd =>
            cases hw : _resolve_weight_kg w with
            | error e3 => simp [planner_weight_upsert_by_date, hu, hd, hw]
            | ok ww =>
                cases hf : (st.weight_entries.filter (weightNaturalKey u dd)).take 1 with
                | nil => simp [planner_weight_upsert_by_date, hu, hd, hw, hf] at h
                | cons r0 rest =>
                    simp [planner_weight_upsert_by_date, hu, hd, hw, hf] at h

/-- C6 witness: a menu add with `day_index = 0` fails validation and leaves
the concrete store exactly as it was. -/
theorem C6_witness :
    (planner_week_menu_add "bob" 0 "" "" "" false none (some "2024-01-01") demoStoreB).2
      = demoStoreB :=
  C6_fail_fast_spec.2.2.2.1 "bob" 0 "" "" "" false none (some "2024-01-01") demoStoreB
    (.runtimeError "day_index must be in range 1..7") (by decide)

/-- C2: for every owner and date with no existing weight row for that
`(owner, date)` pair, upserting with weight `70` inserts (`mode:"inserted"`);
a subsequent upsert with weight `71` for the same date updates
(`mode:"updated"`), and afterwards exactly one row exists for that pair,
carrying weight `71`. -/
theorem C2_weight_upsert_insert_then_update
    (dflt u d' : String) (uid : Option String) (d : String) (st : Store)
    (hu : _resolve_user_id dflt uid = .ok u)
    (hd : _resolve_date (some d) = .ok d')
    (hfresh : ∀ r ∈ st.weight_entries, r.id < st.nextId)
    (hnone : st.weight_entries.filter (weightNaturalKey u d') = []) :
    (planner_weight_upsert_by_date dflt d (.num (.finite 70)) none uid st).1
        = .ok { mode := .inserted,
                item := some { id := st.nextId, user_id := u, date := d',
                               weight_kg := .finite 70, notes := none } } ∧
    (planner_weight_upsert_by_date dflt d (.num (.finite 71)) none uid
        (planner_weight_upsert_by_date dflt d (.num (.finite 70)) none uid st).2).1
        = .ok { mode := .updated,
                item := some { id := st.nextId, user_id := u, date := d',
                               weight_kg := .finite 71, notes := none } } ∧
    ((planner_weight_upsert_by_date dflt d (.num (.finite 71)) none uid
        (planner_weight_upsert_by_date dflt d (.num (.finite 70)) none uid st).2).2.weight_entries.filter
          (weightNaturalKey u d'))
        = [{ id := st.nextId, user_id := u, date := d',
             weight_kg := .finite 71, notes := none }] := by
  have hcall1 : planner_weight_upsert_by_date dflt d (.num (.finite 70)) none uid st
      = (.ok { mode := .inserted,
               item := some { id := st.nextId, user_id := u, date := d',
                              weight_kg := .finite 70, notes := none } },
         { shopping := st.shopping, week_menu := st.week_menu,
           weight_entries := st.weight_entries ++
             [{ id := st.nextId, user_id := u, date := d',
                weight_kg := .finite 70, notes := none }],
           nextId := st.nextId + 1, calls := st.calls + 1 + 1 }) := by
    simp [planner_weight_upsert_by_date, _resolve_weight_kg, hu, hd, hnone, Store.bump]
  have hso : ∀ r ∈ st.weight_entries, weightUpsertUpdScope st.nextId u r = false := by
    intro r hr
    have hlt := hfresh r hr
    have hid : (r.id == st.nextId) = false := by
      simp [Nat.ne_of_lt hlt]
    simp [weightUpsertUpdScope, hid]
  have hfo : st.weight_entries.filter (weightUpsertUpdScope st.nextId u) = [] :=
    List.filter_eq_nil_iff.mpr fun a ha => by simp [hso a ha]
  have hmo : st.weight_entries.map
      (fun r => if weightUpsertUpdScope st.nextId u r
                then weightUpsertApply (.finite 71) none r else r) = st.weight_entries :=
    map_ite_eq_self hso
  have hcall2 : planner_weight_upsert_by_date dflt d (.num (.finite 71)) none uid
      { shopping := st.shopping, week_menu := st.week_menu,
        weight_entries := st.weight_entries ++
          [{ id := st.nextId, user_id := u, date := d',
             weight_kg := .finite 70, notes := none }],
        nextId := st.nextId + 1, calls := st.calls + 1 + 1 }
      = (.ok { mode := .updated,
               item := some { id := st.nextId, user_id := u, date := d',
                              weight_kg := .finite 71, notes := none } },
         { shopping := st.shopping, week_menu := st.week_menu,
           weight_entries := st.weight_entries ++
             [{ id := st.nextId, user_id := u, date := d',
                weight_kg := .finite 71, notes := none }],
           nextId := st.nextId + 1, calls := st.calls + 1 + 1 + 1 + 1 }) := by
    have hsr : weightUpsertUpdScope st.nextId u
        { id := st.nextId, user_id := u, date := d',
          weight_kg := .finite 70, notes := none } = true := by
      simp [weightUpsertUpdScope]
    have hkr : weightNaturalKey u d'
        { id := st.nextId, user_id := u, date := d',
          weight_kg := .finite 70, notes := none } = true := by
      simp [weightNaturalKey]
    have hupd : weightUpsertApply (.finite 71) none
        { id := st.nextId, user_id := u, date := d',
          weight_kg := PyFloat.finite 70, notes := none }
        = { id := st.nextId, user_id := u, date := d',
            weight_kg := PyFloat.finite 71, notes := none } := rfl
    simp [planner_weight_upsert_by_date, _resolve_weight_kg, hu, hd, Store.bump,
          List.filter_append, hnone, hfo, hmo, hsr, hkr, hupd]
  refine ⟨by simp [hcall1], ?_, ?_⟩
  · rw [hcall1]
    simp [hcall2]
  · rw [hcall1]
    simp only []
    rw [hcall2]
    simp [List.filter_append, hnone, weightNaturalKey]

/-- C2 witness: the scenario run on a concrete empty store. -/
theorem C2_witness :
    (planner_weight_upsert_by_date "bob" "2024-01-01" (.num (.finite 70)) none none
        demoStoreB).1
      = .ok { mode := .inserted,
              item := some { id := 5, user_id := "bob", date := "2024-01-01",
                             weight_kg := .finite 70, notes := none } } ∧
    (planner_weight_upsert_by_date "bob" "2024-01-01" (.num (.finite 71)) none none
        (planner_weight_upsert_by_date "bob" "2024-01-01" (.num (.finite 70)) none none
          demoStoreB).2).1
      = .ok { mode := .updated,
              item := some { id := 5, user_id := "bob", date := "2024-01-01",
                             weight_kg := .finite 71, notes := none } } ∧
    ((planner_weight_upsert_by_date "bob" "2024-01-01" (.num (.finite 71)) none none
        (planner_weight_upsert_by_date "bob" "2024-01-01" (.num (.finite 70)) none none
          demoStoreB).2).2.weight_entries.filter (weightNaturalKey "bob" "2024-01-01"))
      = [{ id := 5, user_id := "bob", date := "2024-01-01",
           weight_kg := .finite 71, notes := none }] := by
  have h := C2_weight_upsert_insert_then_update "bob" "bob" "2024-01-01" none "2024-01-01"
    demoStoreB (by decide) (by decide) (by decide) (by decide)
  simpa [demoStoreB] using h

/-- C3: when the natural-key lookup of `planner_week_menu_upsert_day` finds
an existing row, the update branch writes all four mutable fields
(`breakfast`, `lunch`, `dinner`, `is_done`) with exactly the call's argument
values — so a field omitted on the call is reset to its Python default
(`""` / `False`), which is simply the argument value then — while the
natural-key fields (`user_id`, `week_start`, `day_index`) and the id of that
row are left unchanged, and every other row is untouched. -/
theorem C3_menu_upsert_update_branch
    (dflt u ws' : String) (uid ws : Option String) (di : ℤ)
    (b l dn : String) (isd : Bool) (st : Store) (r0 : MenuRow) (rest : List MenuRow)
    (hu : _resolve_user_id dflt uid = .ok u)
    (hw : _resolve_week_start ws = .ok ws')
    (hdi : _resolve_day_index (.int di) = .ok di)
    (hnd : (st.week_menu.map fun r => r.id).Nodup)
    (hfound : st.week_menu.filter (menuNaturalKey u ws' di) = r0 :: rest) :
    (planner_week_menu_upsert_day dflt di b l dn isd uid ws st).1
        = .ok { mode := .updated,
                item := some { id := r0.id, user_id := r0.user_id,
                               week_start := r0.week_start, day_index := r0.day_index,
                               breakfast := b, lunch := l, dinner := dn,
                               is_done := isd } } ∧
    ∃ pre post, st.week_menu = pre ++ r0 :: post ∧
      (planner_week_menu_upsert_day dflt di b l dn isd uid ws st).2.week_menu
        = pre ++ { id := r0.id, user_id := r0.user_id,
                   week_start := r0.week_start, day_index := r0.day_index,
                   breakfast := b, lunch := l, dinner := dn,
                   is_done := isd } :: post := by
  have hr0mem : r0 ∈ st.week_menu.filter (menuNaturalKey u ws' di) := by
    rw [hfound]; exact List.mem_cons_self r0 rest
  have hr0 : r0 ∈ st.week_menu := List.mem_of_mem_filter hr0mem
  have hkey : menuNaturalKey u ws' di r0 = true := List.of_mem_filter hr0mem
  have hkey' : r0.user_id = u ∧ r0.week_start = ws' := by
    simp [menuNaturalKey] at hkey
    exact ⟨hkey.1.1, hkey.1.2⟩
  obtain ⟨pre, post, hsplit⟩ := List.append_of_mem hr0
  have hids : r0.id ∉ pre.map (fun r => r.id) ∧ r0.id ∉ post.map (fun r => r.id) := by
    rw [hsplit] at hnd
    simp only [List.map_append, List.map_cons] at hnd
    have := List.nodup_middle.mp hnd
    have hn := (List.nodup_cons.mp this).1
    simp only [List.mem_append] at hn
    exact ⟨fun hc => hn (Or.inl hc), fun hc => hn (Or.inr hc)⟩
  have hscope_pre : ∀ r ∈ pre, menuUpsertUpdScope r0.id u ws' r = false := by
    intro r hr
    have : r.id ≠ r0.id := fun hc => hids.1 (by
      exact List.mem_map.mpr ⟨r, hr, hc⟩)
    simp [menuUpsertUpdScope, this]
  have hscope_post : ∀ r ∈ post, menuUpsertUpdScope r0.id u ws' r = false := by
    intro r hr
    have : r.id ≠ r0.id := fun hc => hids.2 (by
      exact List.mem_map.mpr ⟨r, hr, hc⟩)
    simp [menuUpsertUpdScope, this]
  have hscope_r0 : menuUpsertUpdScope r0.id u ws' r0 = true := by
    simp [menuUpsertUpdScope, hkey'.1, hkey'.2]
  have hupd : menuUpsertApply b l dn isd r0
      = { id := r0.id, user_id := r0.user_id, week_start := r0.week_start,
          day_index := r0.day_index, breakfast := b, lunch := l, dinner := dn,
          is_done := isd } := rfl
  have hfilter : st.week_menu.filter (menuUpsertUpdScope r0.id u ws') = [r0] := by
    rw [hsplit, List.filter_append, List.filter_cons]
    rw [List.filter_eq_nil_iff.mpr fun a ha => by simp [hscope_pre a ha],
        List.filter_eq_nil_iff.mpr fun a ha => by simp [hscope_post a ha]]
    simp [hscope_r0]
  have hmap : st.week_menu.map
      (fun r => if menuUpsertUpdScope r0.id u ws' r
                then menuUpsertApply b l dn isd r else r)
      = pre ++ { id := r0.id, user_id := r0.user_id, week_start := r0.week_start,
                 day_index := r0.day_index, breakfast := b, lunch := l, dinner := dn,
                 is_done := isd } :: post := by
    rw [hsplit, List.map_append, List.map_cons]
    rw [map_ite_eq_self hscope_pre, map_ite_eq_self hscope_post]
    simp [hscope_r0, hupd]
  refine ⟨?_, pre, post, hsplit, ?_⟩
  · simp [planner_week_menu_upsert_day, hu, hw, hdi, hfound, Store.bump, hfilter, hupd]
  · simp [planner_week_menu_upsert_day, hu, hw, hdi, hfound, Store.bump, hmap]

/-- C3 witness: applied to a store holding one menu row with
`breakfast="eggs"`; the second upsert supplies only `lunch="soup"`, and the
stored breakfast is reset to `""`. -/
theorem C3_witness :
    (planner_week_menu_upsert_day "bob" 3 "" "soup" "" false none (some "2024-01-01")
        { shopping := [], weight_entries := [],
          week_menu := [{ id := 7, user_id := "bob", week_start := "2024-01-01",
                          day_index := 3, breakfast := "eggs", lunch := "",
                          dinner := "", is_done := false }],
          nextId := 8, calls := 0 }).1
      = .ok { mode := .updated,
              item := some { id := 7, user_id := "bob", week_start := "2024-01-01",
                             day_index := 3, breakfast := "", lunch := "soup",
                             dinner := "", is_done := false } } := by
  have h := C3_menu_upsert_update_branch "bob" "bob" "2024-01-01" none
    (some "2024-01-01") 3 "" "soup" "" false
    { shopping := [], weight_entries := [],
      week_menu := [{ id := 7, user_id := "bob", week_start := "2024-01-01",
                      day_index := 3, breakfast := "eggs", lunch := "",
                      dinner := "", is_done := false }],
      nextId := 8, calls := 0 }
    { id := 7, user_id := "bob", week_start := "2024-01-01", day_index := 3,
      breakfast := "eggs", lunch := "", dinner := "", is_done := false }
    [] (by decide) (by decide) (by decide) (by decide) (by decide)
  exact h.1

/-- C10: when the natural-key lookup of `planner_weight_upsert_by_date`
finds an existing row, the update branch always writes both `weight_kg` and
`notes` with the call's argument values — so a call that omits `notes`
(argument `none`) overwrites the stored notes of that row with null rather
than preserving them; the row's id, owner and date are left unchanged, and
every other row is untouched. -/
theorem C10_weight_upsert_update_branch
    (dflt u d' : String) (uid : Option String) (d : String) (w : WeightInput)
    (wv : PyFloat) (notes : Option String) (st : Store) (r0 : WeightRow)
    (rest : List WeightRow)
    (hu : _resolve_user_id dflt uid = .ok u)
    (hd : _resolve_date (some d) = .ok d')
    (hwv : _resolve_weight_kg w = .ok wv)
    (hnd : (st.weight_entries.map fun r => r.id).Nodup)
    (hfound : st.weight_entries.filter (weightNaturalKey u d') = r0 :: rest) :
    (planner_weight_upsert_by_date dflt d w notes uid st).1
        = .ok { mode := .updated,
                item := some { id := r0.id, user_id := r0.user_id, date := r0.date,
                               weight_kg := wv, notes := notes } } ∧
    ∃ pre post, st.weight_entries = pre ++ r0 :: post ∧
      (planner_weight_upsert_by_date dflt d w notes uid st).2.weight_entries
        = pre ++ { id := r0.id, user_id := r0.user_id, date := r0.date,
                   weight_kg := wv, notes := notes } :: post := by
  have hr0mem : r0 ∈ st.weight_entries.filter (weightNaturalKey u d') := by
    rw [hfound]; exact List.mem_cons_self r0 rest
  have hr0 : r0 ∈ st.weight_entries := List.mem_of_mem_filter hr0mem
  have hkey : weightNaturalKey u d' r0 = true := List.of_mem_filter hr0mem
  have hkey' : r0.user_id = u := by
    simp [weightNaturalKey] at hkey
    exact hkey.1
  obtain ⟨pre, post, hsplit⟩ := List.append_of_mem hr0
  have hids : r0.id ∉ pre.map (fun r => r.id) ∧ r0.id ∉ post.map (fun r => r.id) := by
    rw [hsplit] at hnd
    simp only [List.map_append, List.map_cons] at hnd
    have := List.nodup_middle.mp hnd
    have hn := (List.nodup_cons.mp this).1
    simp only [List.mem_append] at hn
    exact ⟨fun hc => hn (Or.inl hc), fun hc => hn (Or.inr hc)⟩
  have hscope_pre : ∀ r ∈ pre, weightUpsertUpdScope r0.id u r = false := by
    intro r hr
    have : r.id ≠ r0.id := fun hc => hids.1 (List.mem_map.mpr ⟨r, hr, hc⟩)
    simp [weightUpsertUpdScope, this]
  have hscope_post : ∀ r ∈ post, weightUpsertUpdScope r0.id u r = false := by
    intro r hr
    have : r.id ≠ r0.id := fun hc => hids.2 (List.mem_map.mpr ⟨r, hr, hc⟩)
    simp [weightUpsertUpdScope, this]
  have hscope_r0 : weightUpsertUpdScope r0.id u r0 = true := by
    simp [weightUpsertUpdScope, hkey']
  have hupd : weightUpsertApply wv notes r0
      = { id := r0.id, user_id := r0.user_id, date := r0.date,
          weight_kg := wv, notes := notes } := rfl
  have hfilter : st.weight_entries.filter (weightUpsertUpdScope r0.id u) = [r0] := by
    rw [hsplit, List.filter_append, List.filter_cons]
    rw [List.filter_eq_nil_iff.mpr fun a ha => by simp [hscope_pre a ha],
        List.filter_eq_nil_iff.mpr fun a ha => by simp [hscope_post a ha]]
    simp [hscope_r0]
  have hmap : st.weight_entries.map
      (fun r => if weightUpsertUpdScope r0.id u r then weightUpsertApply wv notes r else r)
      = pre ++ { id := r0.id, user_id := r0.user_id, date := r0.date,
                 weight_kg := wv, notes := notes } :: post := by
    rw [hsplit, List.map_append, List.map_cons]
    rw [map_ite_eq_self hscope_pre, map_ite_eq_self hscope_post]
    simp [hscope_r0, hupd]
  refine ⟨?_, pre, post, hsplit, ?_⟩
  · simp [planner_weight_upsert_by_date, hu, hd, hwv, hfound, Store.bump, hfilter, hupd]
  · simp [planner_weight_upsert_by_date, hu, hd, hwv, hfound, Store.bump, hmap]

/-- C10 witness: the stored notes `"old"` are overwritten with null when the
upsert call omits `notes`. -/
theorem C10_witness :
    (planner_weight_upsert_by_date "bob" "2024-01-01" (.num (.finite 71)) none none
        { shopping := [], week_menu := [],
          weight_entries := [{ id := 4, user_id := "bob", date := "2024-01-01",
                               weight_kg := .finite 70, notes := some "old" }],
          nextId := 5, calls := 0 }).1
      = .ok { mode := .updated,
              item := some { id := 4, user_id := "bob", date := "2024-01-01",
                             weight_kg := .finite 71, notes := none } } := by
  have h := C10_weight_upsert_update_branch "bob" "bob" "2024-01-01" none "2024-01-01"
    (.num (.finite 71)) (.finite 71) none
    { shopping := [], week_menu := [],
      weight_entries := [{ id := 4, user_id := "bob", date := "2024-01-01",
                           weight_kg := .finite 70, notes := some "old" }],
      nextId := 5, calls := 0 }
    { id := 4, user_id := "bob", date := "2024-01-01",
      weight_kg := .finite 70, notes := some "old" }
    [] (by decide) (by decide) (by decide) (by decide) (by decide)
  exact h.1

theorem shoppingScope_false_of_other (iid : ℕ) {uu : String} {r : ShoppingRow}
    (huu : uu ≠ "") (hru : r.user_id ≠ uu) :
    shoppingScope iid (some uu) r = false := by
  have h1 : (r.user_id == uu) = false := by simp [hru]
  simp [shoppingScope, pyTruthy, huu, h1]

theorem shoppingScope_owner {iid : ℕ} {uu : String} {r : ShoppingRow}
    (huu : uu ≠ "") (h : shoppingScope iid (some uu) r = true) :
    r.user_id = uu := by
  simp [shoppingScope, pyTruthy, huu] at h
  exact h.2

theorem menuScope_false_of_other (iid : ℕ) {uu : String} (ws : Option String)
    {r : MenuRow} (huu : uu ≠ "") (hru : r.user_id ≠ uu) :
    menuScope iid (some uu) ws r = false := by
  have h1 : (r.user_id == uu) = false := by simp [hru]
  simp [menuScope, pyTruthy, huu, h1]

theorem menuScope_owner {iid : ℕ} {uu : String} {ws : Option String} {r : MenuRow}
    (huu : uu ≠ "") (h : menuScope iid (some uu) ws r = true) :
    r.user_id = uu := by
  simp [menuScope, pyTruthy, huu] at h
  tauto

theorem weightScope_false_of_other (iid : ℕ) {uu : String} {r : WeightRow}
    (huu : uu ≠ "") (hru : r.user_id ≠ uu) :
    weightScope iid (some uu) r = false := by
  have h1 : (r.user_id == uu) = false := by simp [hru]
  simp [weightScope, pyTruthy, huu, h1]

theorem weightScope_owner {iid : ℕ} {uu : String} {r : WeightRow}
    (huu : uu ≠ "") (h : weightScope iid (some uu) r = true) :
    r.user_id = uu := by
  simp [weightScope, pyTruthy, huu] at h
  exact h.2

/-- C1 counterexample: with the owner parameter omitted, a caller whose
resolved owner is the configured default `"bob"` nevertheless mutates the
record of the different owner `"alice"`: `planner_shopping_update` with
`user_id=None` filters only by item id, flips alice's `done` flag, and
returns the mutated row. -/
theorem C1_counterexample :
    _resolve_user_id "bob" none = .ok "bob" ∧
    (planner_shopping_update 0 none none none (some true) none demoStoreA).1
      = .ok (.updated [{ id := 0, user_id := "alice", name := "milk",
                         category := "Otros", qty := "1", done := true,
                         created_at := 0 }]) ∧
    (planner_shopping_update 0 none none none (some true) none demoStoreA).2.shopping
      = [{ id := 0, user_id := "alice", name := "milk", category := "Otros",
           qty := "1", done := true, created_at := 0 }] := by
  decide

/-- C1 amended: read (list) operations are always filtered by the caller's
resolved owner id (and, for the menu list, by the resolved week start).  The
update, set-field and delete operations instead apply the owner filter only
when the call supplies a truthy (non-`None`, non-empty) owner argument — the
raw value, not the resolved one — in which case rows of other owners are
left untouched and every affected row belongs to that owner; when the owner
argument is omitted, the filter is the item id alone, so such a call can
mutate or delete a record belonging to a different owner (the upsert
operations, by contrast, always filter by the resolved owner). -/
theorem C1_owner_scoping_amended :
    (∀ dflt uid inc st u, _resolve_user_id dflt uid = .ok u →
      ∀ resp, (planner_shopping_list dflt uid inc st).1 = .ok resp →
        resp.user_id = u ∧ ∀ r ∈ resp.items, r.user_id = u) ∧
    (∀ dflt uid ws st u w, _resolve_user_id dflt uid = .ok u →
      _resolve_week_start ws = .ok w →
      ∀ resp, (planner_week_menu_list dflt uid ws st).1 = .ok resp →
        resp.user_id = u ∧ resp.week_start = w ∧
        ∀ r ∈ resp.items, r.user_id = u ∧ r.week_start = w) ∧
    (∀ dflt uid st u, _resolve_user_id dflt uid = .ok u →
      ∀ resp, (planner_weight_list dflt uid st).1 = .ok resp →
        resp.user_id = u ∧ ∀ r ∈ resp.items, r.user_id = u) ∧
    (∀ iid n c q dn uu st, uu ≠ "" →
      (∀ r ∈ st.shopping, r.user_id ≠ uu →
        r ∈ (planner_shopping_update iid n c q dn (some uu) st).2.shopping) ∧
      (∀ rows, (planner_shopping_update iid n c q dn (some uu) st).1
          = .ok (.updated rows) → ∀ r ∈ rows, r.user_id = uu)) ∧
    (∀ iid dv uu st, uu ≠ "" →
      (∀ r ∈ st.shopping, r.user_id ≠ uu →
        r ∈ (planner_shopping_set_done iid dv (some uu) st).2.shopping) ∧
      (∀ resp, (planner_shopping_set_done iid dv (some uu) st).1 = .ok resp →
        ∀ r ∈ resp.updated, r.user_id = uu)) ∧
    (∀ iid uu st, uu ≠ "" →
      (∀ r ∈ st.shopping, r.user_id ≠ uu →
        r ∈ (planner_shopping_delete iid (some uu) st).2.shopping) ∧
      (∀ resp, (planner_shopping_delete iid (some uu) st).1 = .ok resp →
        ∀ r ∈ resp.deleted, r.user_id = uu)) ∧
    (∀ iid b l dn isd di uu ws st, uu ≠ "" →
      (∀ r ∈ st.week_menu, r.user_id ≠ uu →
        r ∈ (planner_week_menu_update iid b l dn isd di (some uu) ws st).2.week_menu) ∧
      (∀ rows, (planner_week_menu_update iid b l dn isd di (some uu) ws st).1
          = .ok (.updated rows) → ∀ r ∈ rows, r.user_id = uu)) ∧
    (∀ iid uu ws st, uu ≠ "" →
      (∀ r ∈ st.week_menu, r.user_id ≠ uu →
        r ∈ (planner_week_menu_delete iid (some uu) ws st).2.week_menu) ∧
      (∀ resp, (planner_week_menu_delete iid (some uu) ws st).1 = .ok resp →
        ∀ r ∈ resp.deleted, r.user_id = uu)) ∧
    (∀ iid dt w n uu st, uu ≠ "" →
      (∀ r ∈ st.weight_entries, r.user_id ≠ uu →
        r ∈ (planner_weight_update iid dt w n (some uu) st).2.weight_entries) ∧
      (∀ rows, (planner_weight_update iid dt w n (some uu) st).1
          = .ok (.updated rows) → ∀ r ∈ rows, r.user_id = uu)) ∧
    (∀ iid uu st, uu ≠ "" →
      (∀ r ∈ st.weight_entries, r.user_id ≠ uu →
        r ∈ (planner_weight_delete iid (some uu) st).2.weight_entries) ∧
      (∀ resp, (planner_weight_delete iid (some uu) st).1 = .ok resp →
        ∀ r ∈ resp.deleted, r.user_id = uu)) ∧
    (∀ iid dv st (r : ShoppingRow), r ∈ st.shopping → r.id = iid →
      { r with done := dv }
        ∈ (planner_shopping_set_done iid dv none st).2.shopping) ∧
    (∀ iid st (r : ShoppingRow), r ∈ st.shopping → r.id = iid →
      r ∉ (planner_shopping_delete iid none st).2.shopping) := by
  refine ⟨?_, ?_, ?_, ?_, ?_, ?_, ?_, ?_, ?_, ?_, ?_, ?_⟩
  · intro dflt uid inc st u hu resp h
    simp only [planner_shopping_list, hu] at h
    simp only [Except.ok.injEq] at h
    subst h
    refine ⟨rfl, ?_⟩
    intro r hr
    simp only [mem_sortByKey] at hr
    cases inc with
    | true =>
        simp at hr
        tauto
    | false =>
        simp at hr
        tauto
  · intro dflt uid ws st u w hu hw resp h
    simp only [planner_week_menu_list, hu, hw] at h
    simp only [Except.ok.injEq] at h
    subst h
    refine ⟨rfl, rfl, ?_⟩
    intro r hr
    simp only [mem_sortByKey] at hr
    have := List.of_mem_filter hr
    simpa using this
  · intro dflt uid st u hu resp h
    simp only [planner_weight_list, hu] at h
    simp only [Except.ok.injEq] at h
    subst h
    refine ⟨rfl, ?_⟩
    intro r hr
    simp only [mem_sortByKey] at hr
    have := List.of_mem_filter hr
    simpa using this
  · intro iid n c q dn uu st huu
    constructor
    · intro r hr hru
      have hsc := shoppingScope_false_of_other iid huu hru
      by_cases hc : n = none ∧ c = none ∧ q = none ∧ dn = none
      · simp only [planner_shopping_update, if_pos hc]
        exact hr
      · unfold planner_shopping_update
        rw [if_neg hc]
        exact mem_map_ite_of_false hr hsc
    · intro rows hresp r hr
      by_cases hc : n = none ∧ c = none ∧ q = none ∧ dn = none
      · simp [planner_shopping_update, if_pos hc] at hresp
      · unfold planner_shopping_update at hresp
        rw [if_neg hc] at hresp
        simp only [Except.ok.injEq, ShoppingUpdateResp.updated.injEq] at hresp
        subst hresp
        simp only [List.mem_map, List.mem_filter] at hr
        obtain ⟨x, ⟨hx, hscx⟩, rfl⟩ := hr
        have := shoppingScope_owner huu hscx
        simpa [shoppingApply] using this
  · intro iid dv uu st huu
    constructor
    · intro r hr hru
      have hsc := shoppingScope_false_of_other iid huu hru
      exact mem_map_ite_of_false hr hsc
    · intro resp hresp r hr
      simp only [planner_shopping_set_done, Except.ok.injEq] at hresp
      subst hresp
      simp only [List.mem_map, List.mem_filter] at hr
      obtain ⟨x, ⟨hx, hscx⟩, rfl⟩ := hr
      exact shoppingScope_owner huu hscx
  · intro iid uu st huu
    constructor
    · intro r hr hru
      have hsc := shoppingScope_false_of_other iid huu hru
      exact mem_filter_not_of_false hr hsc
    · intro resp hresp r hr
      simp only [planner_shopping_delete, Except.ok.injEq] at hresp
      subst hresp
      simp only [List.mem_filter] at hr
      exact shoppingScope_owner huu hr.2
  · intro iid b l dn isd di uu ws st huu
    constructor
    · intro r hr hru
      have hsc := menuScope_false_of_other iid ws huu hru
      cases di with
      | none =>
          by_cases hc : b = none ∧ l = none ∧ dn = none ∧ isd = none
          · simp only [planner_week_menu_update, if_pos hc]
            exact hr
          · unfold planner_week_menu_update
            rw [if_neg hc]
            exact mem_map_ite_of_false hr hsc
      | some i =>
          cases hdi : _resolve_day_index (.int i) with
          | error e =>
              simp only [planner_week_menu_update, hdi]
              exact hr
          | ok dii =>
              simp only [planner_week_menu_update, hdi]
              exact mem_map_ite_of_false hr hsc
    · intro rows hresp r hr
      cases di with
      | none =>
          by_cases hc : b = none ∧ l = none ∧ dn = none ∧ isd = none
          · simp [planner_week_menu_update, if_pos hc] at hresp
          · unfold planner_week_menu_update at hresp
            rw [if_neg hc] at hresp
            simp only [Except.ok.injEq, MenuUpdateResp.updated.injEq] at hresp
            subst hresp
            simp only [List.mem_map, List.mem_filter] at hr
            obtain ⟨x, ⟨hx, hscx⟩, rfl⟩ := hr
            have := menuScope_owner huu hscx
            simpa [menuApplyChanges] using this
      | some i =>
          cases hdi : _resolve_day_index (.int i) with
          | error e => simp [planner_week_menu_update, hdi] at hresp
          | ok dii =>
              simp only [planner_week_menu_update, hdi] at hresp
              simp only [Except.ok.injEq, MenuUpdateResp.updated.injEq] at hresp
              subst hresp
              simp only [List.mem_map, List.mem_filter] at hr
              obtain ⟨x, ⟨hx, hscx⟩, rfl⟩ := hr
              have := menuScope_owner huu hscx
              simpa [menuApplyChanges] using this
  · intro iid uu ws st huu
    constructor
    · intro r hr hru
      have hsc := menuScope_false_of_other iid ws huu hru
      exact mem_filter_not_of_false hr hsc
    · intro resp hresp r hr
      simp only [planner_week_menu_delete, Except.ok.injEq] at hresp
      subst hresp
      simp only [List.mem_filter] at hr
      exact menuScope_owner huu hr.2
  · intro iid dt w n uu st huu
    constructor
    · intro r hr hru
      have hsc := weightScope_false_of_other iid huu hru
      cases hd : optResolve (fun dd => _resolve_date (some dd)) dt with
      | error e =>
          simp only [planner_weight_update, hd]
          exact hr
      | ok dOpt =>
          cases hw : optResolve _resolve_weight_kg w with
          | error e =>
              simp only [planner_weight_update, hd, hw]
              exact hr
          | ok wOpt =>
              by_cases hc : dOpt = none ∧ wOpt = none ∧ n = none
              · simp only [planner_weight_update, hd, hw, if_pos hc]
                exact hr
              · simp only [planner_weight_update, hd, hw]
                rw [if_neg hc]
                exact mem_map_ite_of_false hr hsc
    · intro rows hresp r hr
      cases hd : optResolve (fun dd => _resolve_date (some dd)) dt with
      | error e => simp [planner_weight_update, hd] at hresp
      | ok dOpt =>
          cases hw : optResolve _resolve_weight_kg w with
          | error e => simp [planner_weight_update, hd, hw] at hresp
          | ok wOpt =>
              by_cases hc : dOpt = none ∧ wOpt = none ∧ n = none
              · simp [planner_weight_update, hd, hw, if_pos hc] at hresp
              · simp only [planner_weight_update, hd, hw] at hresp
                rw [if_neg hc] at hresp
                simp only [Except.ok.injEq, WeightUpdateResp.updated.injEq] at hresp
                subst hresp
                simp only [List.mem_map, List.mem_filter] at hr
                obtain ⟨x, ⟨hx, hscx⟩, rfl⟩ := hr
                have := weightScope_owner huu hscx
                simpa [weightApplyChanges] using this
  · intro iid uu st huu
    constructor
    · intro r hr hru
      have hsc := weightScope_false_of_other iid huu hru
      exact mem_filter_not_of_false hr hsc
    · intro resp hresp r hr
      simp only [planner_weight_delete, Except.ok.injEq] at hresp
      subst hresp
      simp only [List.mem_filter] at hr
      exact weightScope_owner huu hr.2
  · intro iid dv st r hr hid
    have hsc : shoppingScope iid none r = true := by
      simp [shoppingScope, pyTruthy, hid]
    exact mem_map_ite_of_true hr hsc
  · intro iid st r hr hid
    have hsc : shoppingScope iid none r = true := by
      simp [shoppingScope, pyTruthy, hid]
    exact not_mem_filter_not hsc

/-- C1 witness: with the owner parameter supplied and truthy (`"carol"`),
alice's record is left untouched by a shopping update. -/
theorem C1_witness :
    ({ id := 0, user_id := "alice", name := "milk", category := "Otros",
       qty := "1", done := false, created_at := 0 } : ShoppingRow)
      ∈ (planner_shopping_update 0 none none none (some true) (some "carol")
          demoStoreA).2.shopping :=
  (C1_owner_scoping_amended.2.2.2.1 0 none none none (some true) "carol"
      demoStoreA (by decide)).1
    { id := 0, user_id := "alice", name := "milk", category := "Otros",
      qty := "1", done := false, created_at := 0 }
    (by decide) (by decide)

example : _resolve_weight_kg (.str "abc") =
    .error (.runtimeError "weight_kg must be a valid number") := by decide
example : _resolve_weight_kg (.str "inf") = .ok .inf := by decide
example : _resolve_user_id "bob" (some " ") =
    .error (.runtimeError "Missing user_id and CUCKI_DEFAULT_USER_ID") := by decide
example : _resolve_user_id "bob" (some "") = .ok "bob" := by decide
example : _resolve_day_index (.int 3) = .ok 3 := by decide
example : _resolve_day_index (.int 0) =
    .error (.runtimeError "day_index must be in range 1..7") := by decide

end Cucki
